import Mathlib

/-!
# Verification of the batched k-nearest-neighbor kernel wrapper (`mmcv/ops/knn.py`)

Shallow embedding of `KNN.forward` / `KNN.backward` from `src/mmcv/ops/knn.py`,
covering both device branches of the wrapper — the NPU branch (full pairwise
distance tensor followed by `torch.topk` and an early return) and the non-NPU
branch (heap kernel, `mark_non_differentiable` behind the parrots version
guard) — together with a model of the compiled extension kernel
`knn_forward`, whose source is not part of the repository snapshot and is
therefore modelled from the specification.

Tensors are modelled as rank-3 arrays: explicit dimensions, a total data
function, a device tag with an NPU marker and a contiguity flag.  Floating
point coordinates are modelled exactly by rational numbers; the claims under
verification are ordering and structural claims that hold in any linearly
ordered field semantics of the arithmetic.
-/

namespace Knn

/-- A rank-3 floating-point tensor: dimensions `(d0, d1, d2)`, a total data
function (only indices below the dimensions are meaningful), a device id, an
NPU marker (`device.type == 'npu'`) and a contiguity flag, mirroring the
tensor attributes the wrapper reads (`shape`, `get_device()`, `device.type`,
`is_contiguous()`). -/
structure Tensor3 where
  d0 : ℕ
  d1 : ℕ
  d2 : ℕ
  data : ℕ → ℕ → ℕ → ℚ
  device : ℕ
  npu : Bool
  contiguous : Bool

/-- `t.transpose(2, 1)`: swaps the last two dimensions; the result is a view,
hence not marked contiguous. -/
def Tensor3.transpose21 (t : Tensor3) : Tensor3 :=
  { d0 := t.d0, d1 := t.d2, d2 := t.d1,
    data := fun b i j => t.data b j i,
    device := t.device, npu := t.npu, contiguous := false }

/-- `t.contiguous()`: materializes a contiguous copy with the same values. -/
def Tensor3.contig (t : Tensor3) : Tensor3 :=
  { t with contiguous := true }

/-- The integer index tensor returned by the wrapper. -/
structure IdxTensor where
  d0 : ℕ
  d1 : ℕ
  d2 : ℕ
  idata : ℕ → ℕ → ℕ → ℕ
  contiguous : Bool

/-- The failure taxonomy of the call: `invalidArgument` for the `k` range
assert, `assertionError` for the contiguity asserts, `deviceMismatch` for the
same-device assert, `shapeMismatch` for the shape preconditions of the
kernel, `runtimeError` for the exception `torch.topk` raises on the NPU
branch when `k` exceeds the size of the selected dimension. -/
inductive KnnError where
  | invalidArgument
  | assertionError
  | deviceMismatch
  | shapeMismatch
  | runtimeError
deriving DecidableEq

/-- Squared Euclidean distance between query point `(b, m)` of `center` and
candidate point `(b, n)` of `xyz`, summed over the 3 coordinate axes. -/
def dist2 (center xyz : Tensor3) (b m n : ℕ) : ℚ :=
  ((List.range 3).map (fun c => (center.data b m c - xyz.data b n c) ^ 2)).sum

/-- Candidate scan order for one `(b, m)` pair: the pairs
`(distance, candidate index)` for `n = 0 .. N-1` where `N = xyz.d1`. -/
def scanPairs (xyz center : Tensor3) (b m : ℕ) : List (ℚ × ℕ) :=
  (List.range xyz.d1).map (fun n => (dist2 center xyz b m n, n))

/-- Comparison on `(distance, index)` pairs: strictly smaller distance first,
equal distances broken by candidate index (the scan-stable tie-break). -/
def pairLe (p q : ℚ × ℕ) : Prop :=
  p.1 < q.1 ∨ (p.1 = q.1 ∧ p.2 ≤ q.2)

instance : DecidableRel pairLe := fun p q => by
  unfold pairLe; infer_instance

instance : IsTrans (ℚ × ℕ) pairLe where
  trans p q r hpq hqr := by
    rcases hpq with h1 | ⟨h1, h1'⟩ <;> rcases hqr with h2 | ⟨h2, h2'⟩
    · exact Or.inl (lt_trans h1 h2)
    · exact Or.inl (h2 ▸ h1)
    · exact Or.inl (h1 ▸ h2)
    · exact Or.inr ⟨h1.trans h2, le_trans h1' h2'⟩

instance : IsTotal (ℚ × ℕ) pairLe where
  total p q := by
    rcases lt_trichotomy p.1 q.1 with h | h | h
    · exact Or.inl (Or.inl h)
    · rcases le_total p.2 q.2 with h' | h'
      · exact Or.inl (Or.inr ⟨h, h'⟩)
      · exact Or.inr (Or.inr ⟨h.symm, h'⟩)
    · exact Or.inr (Or.inl h)

/-- The sentinel pair used to pad output slots when fewer than `k` candidates
exist: index `0` with distance `1e10`. -/
def sentinel : ℚ × ℕ := ((10 : ℚ) ^ 10, 0)

/-- Modelled from the spec: the per-`(b, m)` result of the bounded top-k
selection performed by the compiled extension kernel `knn_forward` (§4.4
TopKSelector), whose CUDA source is not part of the repository snapshot.
The spec's capacity-`k` max-heap — unconditional insertion while fewer than
`k` entries, replacement of the maximum only on strictly smaller distance,
and a drain into ascending order with equal distances favouring the
candidate encountered earlier in the scan — selects exactly the `k`
lexicographically `(distance, index)`-smallest candidates, emitted in that
ascending order; slots beyond the `N` real candidates are filled with the
sentinel `(1e10, 0)`. -/
def knnPairs (k : ℕ) (xyz center : Tensor3) (b m : ℕ) : List (ℚ × ℕ) :=
  (List.insertionSort pairLe (scanPairs xyz center b m)).take k ++
    List.replicate (k - xyz.d1) sentinel

/-- Modelled from the spec: the compiled extension kernel `knn_forward`
(loaded via `ext_loader.load_ext`), whose source is not part of the
repository snapshot.  Per §4.1/§7 it verifies the coordinate dimension is 3
for both tensors and that batch sizes agree, failing with `ShapeMismatch`
before any distance computation; on success it fills the `(B, npoint, k)`
index tensor with, for each `(b, m)`, the ascending per-query neighbor list
of `knnPairs`. -/
def knn_forward_ext (k : ℕ) (xyz center : Tensor3) :
    Except KnnError (ℕ → ℕ → ℕ → ℕ) :=
  if xyz.d2 = 3 ∧ center.d2 = 3 ∧ xyz.d0 = center.d0 then
    Except.ok (fun b m j => ((knnPairs k xyz center b m).getD j sentinel).2)
  else
    Except.error KnnError.shapeMismatch

/-- Modelled from the spec: the NPU-variant call of the extension kernel
`knn_forward` (knn.py lines 66-68), which receives an empty index tensor and
a `(B, npoint, N)` distance tensor and fills the latter with all pairwise
squared distances (spec §4.3 DistanceEvaluator); shape validation per §7
fails with `ShapeMismatch` before producing data, as for the non-NPU
variant. -/
def knn_forward_ext_npu (xyz center : Tensor3) :
    Except KnnError (ℕ → ℕ → ℕ → ℚ) :=
  if xyz.d2 = 3 ∧ center.d2 = 3 ∧ xyz.d0 = center.d0 then
    Except.ok (fun b m n => dist2 center xyz b m n)
  else
    Except.error KnnError.shapeMismatch

/-- `torch.topk(dist, k, dim=2, largest=False, sorted=True)` for one
`(b, m)` row of `N` entries: the `k` smallest entries in ascending order,
paired with their indices.  torch documents the sortedness and the values but
not the order among exactly equal entries; the model commits to lower index
first, and no theorem below relies on that tie order for the NPU path.  The
caller is responsible for `k ≤ N`; `torch.topk` raises a runtime error
otherwise (modelled at the call site in `forward`). -/
def topkPairs (k N : ℕ) (dist : ℕ → ℚ) : List (ℚ × ℕ) :=
  (List.insertionSort pairLe ((List.range N).map (fun n => (dist n, n)))).take k

/-- `KNN.forward` from `src/mmcv/ops/knn.py`, as a function of the arguments,
of the framework flavour (`parrots`, i.e. `torch.__version__ == 'parrots'`)
and of the ambient current-device state `curDev`
(`torch.cuda.current_device()`); it returns the result paired with the
current-device state after the call.  On success the payload is the
`(B, k, npoint)` index tensor together with whether
`ctx.mark_non_differentiable` was applied to it.  Steps, in source order: the
`k` range assert; defaulting `center_xyz` to `xyz`; transposing and
materializing contiguous copies when `transposed`; the two contiguity
asserts; the same-device assert; the conditional `torch.cuda.set_device`,
guarded by `device.type != 'npu'`; then, on the NPU branch (lines 65-73), the
distance-filling kernel call, `torch.topk` (raising when `k > N`) and an
early return with no non-differentiability mark — the sentinel substitution
`idx.where(dist2 >= 1e10, zeros_idx)` of line 71 discards its result and is
therefore a no-op, so it does not appear; on the non-NPU branch, the
index-filling kernel call, the final `transpose(2, 1)` into `(B, k, npoint)`
layout, and the mark, applied only when the version is not parrots. -/
def forward (k : ℤ) (xyz0 : Tensor3) (center? : Option Tensor3)
    (transposed : Bool) (parrots : Bool) (curDev : ℕ) :
    Except KnnError (IdxTensor × Bool) × ℕ :=
  if ¬(0 < k ∧ k < 100) then (Except.error KnnError.invalidArgument, curDev) else
  let center0 := center?.getD xyz0
  let xyz := if transposed then xyz0.transpose21.contig else xyz0
  let center := if transposed then center0.transpose21.contig else center0
  if xyz.contiguous = false then (Except.error KnnError.assertionError, curDev) else
  if center.contiguous = false then (Except.error KnnError.assertionError, curDev) else
  if center.device ≠ xyz.device then (Except.error KnnError.deviceMismatch, curDev) else
  let newDev :=
    if xyz.npu = false then
      if curDev ≠ center.device then center.device else curDev
    else curDev
  if xyz.npu = true then
    match knn_forward_ext_npu xyz center with
    | Except.error e => (Except.error e, newDev)
    | Except.ok dist =>
        if k.toNat ≤ xyz.d1 then
          (Except.ok ({ d0 := center.d0, d1 := k.toNat, d2 := center.d1,
                        idata := fun b j m =>
                          ((topkPairs k.toNat xyz.d1 (dist b m)).getD j sentinel).2,
                        contiguous := true }, false),
           newDev)
        else (Except.error KnnError.runtimeError, newDev)
  else
    match knn_forward_ext k.toNat xyz center with
    | Except.error e => (Except.error e, newDev)
    | Except.ok idx =>
        (Except.ok ({ d0 := center.d0, d1 := k.toNat, d2 := center.d1,
                      idata := fun b j m => idx b m j, contiguous := true },
                    !parrots),
         newDev)

/-- `KNN.backward` from `src/mmcv/ops/knn.py`: given the incoming gradient
(`a`, defaulting to `None`), `return None, None, None`. -/
def backward (_a : Option Tensor3) :
    Option Tensor3 × Option Tensor3 × Option Tensor3 :=
  (none, none, none)

/-- The index at output position `(b, j, m)` of a call's result, `0` when the
call failed (used only to state properties of successful calls). -/
def callIdx (k : ℤ) (xyz0 : Tensor3) (center? : Option Tensor3)
    (transposed parrots : Bool) (curDev : ℕ) (b j m : ℕ) : ℕ :=
  match (forward k xyz0 center? transposed parrots curDev).1 with
  | Except.ok (t, _) => t.idata b j m
  | Except.error _ => 0

/-- Whether a call succeeds. -/
def callOk (k : ℤ) (xyz0 : Tensor3) (center? : Option Tensor3)
    (transposed parrots : Bool) (curDev : ℕ) : Bool :=
  match (forward k xyz0 center? transposed parrots curDev).1 with
  | Except.ok _ => true
  | Except.error _ => false

/-- The dimensions of a successful call's index tensor (`(0,0,0)` on failure). -/
def callDims (k : ℤ) (xyz0 : Tensor3) (center? : Option Tensor3)
    (transposed parrots : Bool) (curDev : ℕ) : ℕ × ℕ × ℕ :=
  match (forward k xyz0 center? transposed parrots curDev).1 with
  | Except.ok (t, _) => (t.d0, t.d1, t.d2)
  | Except.error _ => (0, 0, 0)

/-- Whether a successful call's output was marked non-differentiable
(`false` on failure). -/
def callMarked (k : ℤ) (xyz0 : Tensor3) (center? : Option Tensor3)
    (transposed parrots : Bool) (curDev : ℕ) : Bool :=
  match (forward k xyz0 center? transposed parrots curDev).1 with
  | Except.ok (_, mk) => mk
  | Except.error _ => false

/-- The sorted candidate list of one `(b, m)` pair: the scan pairs in
ascending `(distance, index)` order. -/
def sortScan (xyz center : Tensor3) (b m : ℕ) : List (ℚ × ℕ) :=
  List.insertionSort pairLe (scanPairs xyz center b m)

/-! ### Concrete test fixtures

The point set `[[0,0,0],[1,0,0],[5,5,5]]` with query center `[[0,0,0]]` is
the worked example of the spec (§8). -/

/-- Points `[[0,0,0],[1,0,0],[5,5,5]]`, one batch, device 0, contiguous. -/
def ptsA : Tensor3 :=
  { d0 := 1, d1 := 3, d2 := 3,
    data := fun _ n c => if n = 1 ∧ c = 0 then 1 else if n = 2 then 5 else 0,
    device := 0, npu := false, contiguous := true }

/-- One query center `[[0,0,0]]`, device 0, contiguous. -/
def ctrA : Tensor3 :=
  { d0 := 1, d1 := 1, d2 := 3,
    data := fun _ _ _ => 0,
    device := 0, npu := false, contiguous := true }

/-- Points `[[0,0,0],[1,0,0]]`: only `N = 2` candidates, for the `N < k`
clamp case. -/
def ptsB : Tensor3 :=
  { d0 := 1, d1 := 2, d2 := 3,
    data := fun _ n c => if n = 1 ∧ c = 0 then 1 else 0,
    device := 0, npu := false, contiguous := true }

/-- A tensor whose coordinate dimension is 4 instead of 3. -/
def bad4 : Tensor3 :=
  { d0 := 1, d1 := 1, d2 := 4,
    data := fun _ _ _ => 0,
    device := 0, npu := false, contiguous := true }

/-- The center `ctrA` placed on device 1 instead of device 0. -/
def ctrD1 : Tensor3 :=
  { ctrA with device := 1 }

/-- The points `ptsA` placed on device 1. -/
def ptsD1 : Tensor3 :=
  { ptsA with device := 1 }

/-- A non-contiguous storage of the points `ptsA`. -/
def ptsNC : Tensor3 :=
  { ptsA with contiguous := false }

/-- The points `ptsA` placed on an NPU device. -/
def ptsAnpu : Tensor3 :=
  { ptsA with npu := true }

/-- The center `ctrA` placed on an NPU device. -/
def ctrAnpu : Tensor3 :=
  { ctrA with npu := true }

/-- The two-candidate points `ptsB` placed on an NPU device. -/
def ptsBnpu : Tensor3 :=
  { ptsB with npu := true }

/-! ### Supporting lemmas -/

theorem setDev_eq (d e : ℕ) : (if d ≠ e then e else d) = e := by
  by_cases h : d = e <;> simp [h]

/-- Under the full precondition set (valid `k`, point-major contiguous
inputs, matching devices, coordinate dimension 3, matching batch sizes) a
non-NPU call succeeds, returns the `(B, k, M)` index tensor obtained by
transposing the per-`(b, m)` ascending neighbor lists, carries the
non-differentiability mark exactly when the framework is not parrots, and
leaves the ambient current device at the inputs' device. -/
theorem forward_ok_eq (k : ℤ) (xyz c : Tensor3) (p : Bool) (d : ℕ)
    (hk : 0 < k ∧ k < 100) (hx : xyz.contiguous = true) (hc : c.contiguous = true)
    (hdev : c.device = xyz.device)
    (h3x : xyz.d2 = 3) (h3c : c.d2 = 3) (hB : xyz.d0 = c.d0)
    (hnpu : xyz.npu = false) :
    forward k xyz (some c) false p d =
      (Except.ok ({ d0 := c.d0, d1 := k.toNat, d2 := c.d1,
                    idata := fun b j m =>
                      ((knnPairs k.toNat xyz c b m).getD j sentinel).2,
                    contiguous := true }, !p), c.device) := by
  simp [forward, knn_forward_ext, hk, hx, hc, hdev, h3x, h3c, hB, hnpu, setDev_eq]

theorem length_scanPairs (xyz c : Tensor3) (b m : ℕ) :
    (scanPairs xyz c b m).length = xyz.d1 := by
  simp [scanPairs]

theorem sortScan_perm (xyz c : Tensor3) (b m : ℕ) :
    (sortScan xyz c b m).Perm (scanPairs xyz c b m) :=
  List.perm_insertionSort pairLe (scanPairs xyz c b m)

theorem sortScan_sorted (xyz c : Tensor3) (b m : ℕ) :
    (sortScan xyz c b m).Pairwise pairLe :=
  List.sorted_insertionSort pairLe (scanPairs xyz c b m)

theorem length_sortScan (xyz c : Tensor3) (b m : ℕ) :
    (sortScan xyz c b m).length = xyz.d1 := by
  rw [(sortScan_perm xyz c b m).length_eq, length_scanPairs]

theorem map_snd_scanPairs (xyz c : Tensor3) (b m : ℕ) :
    (scanPairs xyz c b m).map Prod.snd = List.range xyz.d1 := by
  simp [scanPairs, List.map_map, Function.comp_def]

theorem map_snd_sortScan_perm (xyz c : Tensor3) (b m : ℕ) :
    ((sortScan xyz c b m).map Prod.snd).Perm (List.range xyz.d1) := by
  rw [← map_snd_scanPairs xyz c b m]
  exact (sortScan_perm xyz c b m).map Prod.snd

theorem nodup_map_snd_sortScan (xyz c : Tensor3) (b m : ℕ) :
    ((sortScan xyz c b m).map Prod.snd).Nodup :=
  (map_snd_sortScan_perm xyz c b m).nodup_iff.mpr (List.nodup_range xyz.d1)

theorem mem_scanPairs (xyz c : Tensor3) (b m : ℕ) {p : ℚ × ℕ}
    (hp : p ∈ scanPairs xyz c b m) :
    p.1 = dist2 c xyz b m p.2 ∧ p.2 < xyz.d1 := by
  simp only [scanPairs, List.mem_map, List.mem_range] at hp
  obtain ⟨n, hn, rfl⟩ := hp
  exact ⟨rfl, hn⟩

theorem mem_sortScan (xyz c : Tensor3) (b m : ℕ) {p : ℚ × ℕ}
    (hp : p ∈ sortScan xyz c b m) :
    p.1 = dist2 c xyz b m p.2 ∧ p.2 < xyz.d1 :=
  mem_scanPairs xyz c b m ((sortScan_perm xyz c b m).mem_iff.mp hp)

theorem getD_replicate_self {α : Type} (n i : ℕ) (x : α) :
    (List.replicate n x).getD i x = x := by
  rcases Nat.lt_or_ge i n with h | h
  · rw [List.getD_eq_getElem _ _ (by simpa using h), List.getElem_replicate]
  · exact List.getD_eq_default _ _ (by simpa using h)

/-- Slot `i < min k N` of the padded neighbor list is slot `i` of the sorted
real-candidate list. -/
theorem knnPairs_getD_real (k : ℕ) (xyz c : Tensor3) (b m i : ℕ)
    (hik : i < k) (hiN : i < xyz.d1) :
    (knnPairs k xyz c b m).getD i sentinel = (sortScan xyz c b m).getD i sentinel := by
  have hlen : i < ((sortScan xyz c b m).take k).length := by
    simp [List.length_take, length_sortScan, hik, hiN]
  rw [knnPairs, ← sortScan, List.getD_append _ _ _ _ hlen,
    List.getD_eq_getElem _ _ hlen, List.getElem_take,
    List.getD_eq_getElem _ _ (by simpa [length_sortScan] using hiN)]

/-- Slot `i` with `N ≤ i < k` of the padded neighbor list is the sentinel. -/
theorem knnPairs_getD_pad (k : ℕ) (xyz c : Tensor3) (b m i : ℕ)
    (hN : xyz.d1 ≤ i) :
    (knnPairs k xyz c b m).getD i sentinel = sentinel := by
  rcases Nat.lt_or_ge i ((sortScan xyz c b m).take k).length with h | h
  · exact absurd (lt_of_lt_of_le h (by simp [List.length_take, length_sortScan]))
      (not_lt.mpr hN)
  · rw [knnPairs, ← sortScan, List.getD_append_right _ _ _ _ h, getD_replicate_self]

/-- When all `k` requested neighbors exist, `torch.topk` over the full
distance row returns exactly the heap kernel's per-query list (no padding is
involved on either side). -/
theorem topkPairs_eq_knnPairs (k : ℕ) (xyz c : Tensor3) (b m : ℕ)
    (hkN : k ≤ xyz.d1) :
    topkPairs k xyz.d1 (fun n => dist2 c xyz b m n) = knnPairs k xyz c b m := by
  unfold topkPairs knnPairs scanPairs
  rw [Nat.sub_eq_zero_of_le hkN]
  simp

/-- Under the full precondition set, an NPU call with `k ≤ N` succeeds,
returns the same `(B, k, M)` index content as the non-NPU path, is not
marked non-differentiable, and leaves the ambient device state untouched. -/
theorem forward_ok_npu_eq (k : ℤ) (xyz c : Tensor3) (p : Bool) (d : ℕ)
    (hk : 0 < k ∧ k < 100) (hx : xyz.contiguous = true) (hc : c.contiguous = true)
    (hdev : c.device = xyz.device)
    (h3x : xyz.d2 = 3) (h3c : c.d2 = 3) (hB : xyz.d0 = c.d0)
    (hnpu : xyz.npu = true) (hkN : k.toNat ≤ xyz.d1) :
    forward k xyz (some c) false p d =
      (Except.ok ({ d0 := c.d0, d1 := k.toNat, d2 := c.d1,
                    idata := fun b j m =>
                      ((knnPairs k.toNat xyz c b m).getD j sentinel).2,
                    contiguous := true }, false), d) := by
  have htop : ∀ b m, topkPairs k.toNat xyz.d1 (fun n => dist2 c xyz b m n)
      = knnPairs k.toNat xyz c b m :=
    fun b m => topkPairs_eq_knnPairs k.toNat xyz c b m hkN
  simp [forward, knn_forward_ext_npu, hk, hx, hc, hdev, h3x, h3c, hB, hnpu,
    hkN, htop]

/-- The only failure the modelled non-NPU kernel itself reports is
`shapeMismatch`, and only on the bad shapes. -/
theorem knn_forward_ext_eq_error {k : ℕ} {x c : Tensor3} {e : KnnError} :
    knn_forward_ext k x c = Except.error e ↔
      ¬(x.d2 = 3 ∧ c.d2 = 3 ∧ x.d0 = c.d0) ∧ e = KnnError.shapeMismatch := by
  unfold knn_forward_ext
  split <;> simp_all [eq_comm]

/-- The only failure the modelled NPU kernel itself reports is
`shapeMismatch`, and only on the bad shapes. -/
theorem knn_forward_ext_npu_eq_error {x c : Tensor3} {e : KnnError} :
    knn_forward_ext_npu x c = Except.error e ↔
      ¬(x.d2 = 3 ∧ c.d2 = 3 ∧ x.d0 = c.d0) ∧ e = KnnError.shapeMismatch := by
  unfold knn_forward_ext_npu
  split <;> simp_all [eq_comm]

set_option maxHeartbeats 1000000 in
/-- A successful call is marked non-differentiable exactly when the input is
not on NPU (early return at knn.py line 73) and the framework is not parrots
(the guard at line 82). -/
theorem forward_marked {k : ℤ} {xyz : Tensor3} {c? : Option Tensor3} {tr p : Bool}
    {d : ℕ} {t : IdxTensor} {mk : Bool}
    (h : (forward k xyz c? tr p d).1 = Except.ok (t, mk)) :
    mk = (!xyz.npu && !p) := by
  by_cases hk : 0 < k ∧ k < 100
  · simp only [forward, if_neg (not_not_intro hk)] at h
    repeat' split at h
    all_goals simp_all [Tensor3.transpose21, Tensor3.contig]
  · simp [forward, hk] at h
/-! ### Claim theorems -/

/-- C3: a call with `k` outside the open interval `(0, 100)` is rejected with
the `InvalidArgument` failure (the range assert, raised before any other
processing), while any `k` with `0 < k < 100` passes this check: no such
call ever reports `InvalidArgument`. -/
theorem k_range_check (k : ℤ) (xyz : Tensor3) (c? : Option Tensor3)
    (tr p : Bool) (d : ℕ) :
    (¬(0 < k ∧ k < 100) →
      (forward k xyz c? tr p d).1 = Except.error KnnError.invalidArgument) ∧
    ((0 < k ∧ k < 100) →
      (forward k xyz c? tr p d).1 ≠ Except.error KnnError.invalidArgument) := by
  constructor
  · intro hk
    simp [forward, hk]
  · intro hk
    simp only [forward, if_neg (not_not_intro hk)]
    repeat' split
    all_goals simp_all [knn_forward_ext_eq_error, knn_forward_ext_npu_eq_error]

theorem k_range_check_witness :
    ¬((0:ℤ) < 0 ∧ (0:ℤ) < 100) ∧
    (forward 0 ptsA (some ctrA) false false 0).1 = Except.error KnnError.invalidArgument ∧
    ¬((0:ℤ) < 100 ∧ (100:ℤ) < 100) ∧
    (forward 100 ptsA (some ctrA) false false 0).1 = Except.error KnnError.invalidArgument ∧
    ((0:ℤ) < 1 ∧ (1:ℤ) < 100) ∧
    (forward 1 ptsA (some ctrA) false false 0).1 ≠ Except.error KnnError.invalidArgument ∧
    ((0:ℤ) < 99 ∧ (99:ℤ) < 100) ∧
    (forward 99 ptsA (some ctrA) false false 0).1 ≠ Except.error KnnError.invalidArgument :=
  ⟨by decide,
   (k_range_check 0 ptsA (some ctrA) false false 0).1 (by decide),
   by decide,
   (k_range_check 100 ptsA (some ctrA) false false 0).1 (by decide),
   by decide,
   (k_range_check 1 ptsA (some ctrA) false false 0).2 (by decide),
   by decide,
   (k_range_check 99 ptsA (some ctrA) false false 0).2 (by decide)⟩

/-- C4: a call (in canonical point-major layout, with the earlier checks
passing) whose points or centers tensor has coordinate dimension different
from 3, or whose batch sizes differ, is rejected with the `ShapeMismatch`
failure on either device branch: the call returns an error and no data. -/
theorem shape_mismatch_check (k : ℤ) (xyz c : Tensor3) (p : Bool) (d : ℕ)
    (hk : 0 < k ∧ k < 100) (hx : xyz.contiguous = true) (hc : c.contiguous = true)
    (hdev : c.device = xyz.device)
    (hbad : ¬(xyz.d2 = 3 ∧ c.d2 = 3 ∧ xyz.d0 = c.d0)) :
    (forward k xyz (some c) false p d).1 = Except.error KnnError.shapeMismatch := by
  unfold forward knn_forward_ext knn_forward_ext_npu
  rw [if_neg (not_not_intro hk)]
  cases hnp : xyz.npu <;> simp [hx, hc, hdev, hnp, if_neg hbad]

theorem shape_mismatch_check_witness :
    ((0:ℤ) < 1 ∧ (1:ℤ) < 100) ∧ bad4.contiguous = true ∧ ctrA.contiguous = true ∧
    ctrA.device = bad4.device ∧ ¬(bad4.d2 = 3 ∧ ctrA.d2 = 3 ∧ bad4.d0 = ctrA.d0) ∧
    (forward 1 bad4 (some ctrA) false false 0).1 = Except.error KnnError.shapeMismatch :=
  ⟨by decide, rfl, rfl, rfl, by decide,
   shape_mismatch_check 1 bad4 ctrA false 0 (by decide) rfl rfl rfl (by decide)⟩

/-- C7: a call whose points and centers reside on different devices is
rejected with the `DeviceMismatch` failure before any distance computation,
and the ambient current-device state is left untouched (the inputs are not
relocated). -/
theorem device_mismatch_check (k : ℤ) (xyz c : Tensor3) (p : Bool) (d : ℕ)
    (hk : 0 < k ∧ k < 100) (hx : xyz.contiguous = true) (hc : c.contiguous = true)
    (hdev : c.device ≠ xyz.device) :
    forward k xyz (some c) false p d = (Except.error KnnError.deviceMismatch, d) := by
  unfold forward
  rw [if_neg (not_not_intro hk)]
  simp [hx, hc, hdev]

theorem device_mismatch_check_witness :
    ((0:ℤ) < 1 ∧ (1:ℤ) < 100) ∧ ptsA.contiguous = true ∧ ctrD1.contiguous = true ∧
    ctrD1.device ≠ ptsA.device ∧
    forward 1 ptsA (some ctrD1) false false 0 = (Except.error KnnError.deviceMismatch, 0) :=
  ⟨by decide, rfl, rfl, by decide,
   device_mismatch_check 1 ptsA ctrD1 false 0 (by decide) rfl rfl (by decide)⟩

/-- C10: with `transposed = false` the caller's arrays are used as-is: a
non-contiguous points or centers tensor makes the call fail with the
assertion error, while for contiguous inputs the contiguity assertions can
never be the failure. -/
theorem contiguity_policy (k : ℤ) (xyz c : Tensor3) (p : Bool) (d : ℕ)
    (hk : 0 < k ∧ k < 100) :
    ((xyz.contiguous = false ∨ c.contiguous = false) →
      (forward k xyz (some c) false p d).1 = Except.error KnnError.assertionError) ∧
    (xyz.contiguous = true → c.contiguous = true →
      (forward k xyz (some c) false p d).1 ≠ Except.error KnnError.assertionError) := by
  constructor
  · intro h
    rcases h with h | h
    · simp [forward, hk, h]
    · cases hxc : xyz.contiguous <;> simp [forward, hk, hxc, h]
  · intro hx hc
    simp only [forward, if_neg (not_not_intro hk)]
    repeat' split
    all_goals simp_all [knn_forward_ext_eq_error, knn_forward_ext_npu_eq_error]

theorem contiguity_policy_witness :
    ((0:ℤ) < 2 ∧ (2:ℤ) < 100) ∧
    (forward 2 ptsNC (some ctrA) false false 0).1 = Except.error KnnError.assertionError ∧
    (forward 2 ptsA (some ctrA) false false 0).1 ≠ Except.error KnnError.assertionError :=
  ⟨by decide,
   (contiguity_policy 2 ptsNC ctrA false 0 (by decide)).1 (Or.inl rfl),
   (contiguity_policy 2 ptsA ctrA false 0 (by decide)).2 rfl rfl⟩

/-- C8 (counterexample): the claim that the output index tensor is always
marked as producing no gradient fails on the NPU branch: this valid NPU call
succeeds, yet its returned tensor carries no non-differentiability mark (the
branch returns at knn.py line 73, before `ctx.mark_non_differentiable`). -/
theorem non_differentiable_counterexample :
    callOk 2 ptsAnpu (some ctrAnpu) false false 0 = true ∧
    callMarked 2 ptsAnpu (some ctrAnpu) false false 0 = false := by
  constructor <;> decide

/-- C8 (amended): the backward pass returns the absent (`None`) gradient in
every returned slot, never attempting to differentiate the discrete
selection; on the standard (non-parrots) framework every successful non-NPU
call has its output index tensor marked non-differentiable, while the NPU
branch's early return and the parrots guard skip the mark, so those calls
return an unmarked tensor. -/
theorem non_differentiable (g : Option Tensor3) (k : ℤ) (xyz : Tensor3)
    (c? : Option Tensor3) (tr p : Bool) (d : ℕ) :
    backward g = (none, none, none) ∧
    (xyz.npu = false → p = false → callOk k xyz c? tr p d = true →
      callMarked k xyz c? tr p d = true) ∧
    ((xyz.npu = true ∨ p = true) → callMarked k xyz c? tr p d = false) := by
  refine ⟨rfl, ?_, ?_⟩
  · intro hnp hp hok
    unfold callOk at hok
    unfold callMarked
    cases h : (forward k xyz c? tr p d).1 with
    | error e => rw [h] at hok; simp at hok
    | ok pr =>
      cases pr with
      | mk t mk => simp [forward_marked h, hnp, hp]
  · intro hor
    unfold callMarked
    cases h : (forward k xyz c? tr p d).1 with
    | error e => simp
    | ok pr =>
      cases pr with
      | mk t mk =>
        rcases hor with hnp | hp
        · simp [forward_marked h, hnp]
        · simp [forward_marked h, hp]

theorem non_differentiable_witness :
    backward none = (none, none, none) ∧
    ptsA.npu = false ∧
    callOk 2 ptsA (some ctrA) false false 0 = true ∧
    callMarked 2 ptsA (some ctrA) false false 0 = true ∧
    ptsAnpu.npu = true ∧
    callMarked 2 ptsAnpu (some ctrAnpu) false false 0 = false :=
  ⟨(non_differentiable none 2 ptsA (some ctrA) false false 0).1, rfl, by decide,
   (non_differentiable none 2 ptsA (some ctrA) false false 0).2.1 rfl rfl (by decide),
   rfl,
   (non_differentiable none 2 ptsAnpu (some ctrAnpu) false false 0).2.2 (Or.inl rfl)⟩

/-- C9: for every valid call the returned index tensor has layout
`(B, k, M)` — rank dimension adjacent to batch — and the entry at
`(b, j, m)` is exactly element `j` of the per-`(b, m)` ascending neighbor
list, a pure transpose of the kernel's `(B, M, k)` output with no change to
the index values; this covers both device branches (on the NPU branch, for
the calls that return at all, i.e. `k ≤ N`). -/
theorem output_layout (k : ℤ) (xyz c : Tensor3) (p : Bool) (d b j m : ℕ)
    (hk : 0 < k ∧ k < 100) (hx : xyz.contiguous = true) (hc : c.contiguous = true)
    (hdev : c.device = xyz.device)
    (h3x : xyz.d2 = 3) (h3c : c.d2 = 3) (hB : xyz.d0 = c.d0)
    (hpath : xyz.npu = false ∨ k.toNat ≤ xyz.d1) :
    callOk k xyz (some c) false p d = true ∧
    callDims k xyz (some c) false p d = (c.d0, k.toNat, c.d1) ∧
    callIdx k xyz (some c) false p d b j m =
      ((knnPairs k.toNat xyz c b m).getD j sentinel).2 := by
  cases hnp : xyz.npu with
  | false =>
    have he := forward_ok_eq k xyz c p d hk hx hc hdev h3x h3c hB hnp
    refine ⟨?_, ?_, ?_⟩ <;> simp [callOk, callDims, callIdx, he]
  | true =>
    have hkN : k.toNat ≤ xyz.d1 := by
      rcases hpath with h | h
      · rw [h] at hnp; exact absurd hnp (by simp)
      · exact h
    have he := forward_ok_npu_eq k xyz c p d hk hx hc hdev h3x h3c hB hnp hkN
    refine ⟨?_, ?_, ?_⟩ <;> simp [callOk, callDims, callIdx, he]

theorem output_layout_witness :
    ((0:ℤ) < 2 ∧ (2:ℤ) < 100) ∧
    callOk 2 ptsA (some ctrA) false false 0 = true ∧
    callDims 2 ptsA (some ctrA) false false 0 = (1, 2, 1) ∧
    callIdx 2 ptsA (some ctrA) false false 0 0 1 0 =
      ((knnPairs 2 ptsA ctrA 0 0).getD 1 sentinel).2 := by
  have h := output_layout 2 ptsA ctrA false 0 0 1 0 (by decide) rfl rfl rfl rfl rfl rfl
    (Or.inl rfl)
  exact ⟨by decide, h.1, h.2.1, h.2.2⟩

/-- A contiguous tensor is recovered by transposing its transposed-contiguous
storage and materializing it again. -/
theorem transpose21_contig_twice (t : Tensor3) (h : t.contiguous = true) :
    t.transpose21.contig.transpose21.contig = t := by
  cases t with
  | mk d0 d1 d2 data dev npu cont =>
    simp only [Tensor3.transpose21, Tensor3.contig] at *
    subst h
    rfl

set_option maxHeartbeats 1000000 in
/-- C6: for every logical input (point-major contiguous points and centers),
the call with `transposed = false` on the data returns exactly the same
result — value for value, including the ambient device state — as the call
with `transposed = true` on the coordinate-transposed storage of the same
data.  (The embedding is pure: the transposed call reads the caller's arrays
and materializes fresh copies, so the originals are untouched by
construction.) -/
theorem transposition_invariance (k : ℤ) (xyz c : Tensor3) (p : Bool) (d : ℕ)
    (hx : xyz.contiguous = true) (hc : c.contiguous = true) :
    forward k xyz (some c) false p d =
      forward k xyz.transpose21.contig (some c.transpose21.contig) true p d := by
  have h1 := transpose21_contig_twice xyz hx
  have h2 := transpose21_contig_twice c hc
  simp [forward, h1, h2]

theorem transposition_invariance_witness :
    ptsA.contiguous = true ∧ ctrA.contiguous = true ∧
    forward 2 ptsA (some ctrA) false false 0 =
      forward 2 ptsA.transpose21.contig (some ctrA.transpose21.contig) true false 0 :=
  ⟨rfl, rfl, transposition_invariance 2 ptsA ctrA false 0 rfl rfl⟩

/-- C5 (counterexample): the call is not free of ambient mutation: with the
current device set to 0 and inputs on device 1, the call returns with the
ambient current device changed to 1. -/
theorem stateless_counterexample :
    (forward 1 ptsD1 none false false 0).2 = 1 ∧ (1 : ℕ) ≠ 0 := by
  constructor <;> decide

/-- C5 (amended): the kernel retains no internal state across calls and is
idempotent given identical inputs — repeating a call reproduces the same
result and leaves the ambient current-device state at its post-first-call
value — but the call itself may mutate that ambient current-device setting:
when the current device differs from the inputs' device on the non-NPU path
it is set to the inputs' device. -/
theorem stateless_idempotent (k : ℤ) (xyz : Tensor3) (c? : Option Tensor3)
    (tr p : Bool) (d : ℕ) :
    forward k xyz c? tr p (forward k xyz c? tr p d).2 = forward k xyz c? tr p d := by
  by_cases hk : 0 < k ∧ k < 100
  case neg => simp [forward, hk]
  case pos =>
    simp only [forward, if_neg (not_not_intro hk)]
    set X := (if tr = true then xyz.transpose21.contig else xyz) with hX
    set C := (if tr = true then (c?.getD xyz).transpose21.contig else c?.getD xyz) with hC
    by_cases h1 : X.contiguous = false
    · simp [h1]
    · by_cases h2 : C.contiguous = false
      · simp [h1, h2]
      · by_cases h3 : C.device ≠ X.device
        · simp [h1, h2, h3]
        · by_cases h4 : X.npu = true
          · cases hext : knn_forward_ext_npu X C with
            | error e => simp [h1, h2, h3, h4, hext]
            | ok dist =>
              by_cases h5 : k.toNat ≤ X.d1
              · simp [h1, h2, h3, h4, hext, h5]
              · simp [h1, h2, h3, h4, hext, h5]
          · cases hext : knn_forward_ext k.toNat X C with
            | error e => simp [h1, h2, h3, h4, hext, setDev_eq]
            | ok idx => simp [h1, h2, h3, h4, hext, setDev_eq]

/-- C1 (counterexample): the claim fails as stated on the code: on a valid
call with `N < k` (points `[[0,0,0],[1,0,0]]`, `k = 4`), output slots 2 and
3 both hold sentinel index 0, so the pair is at equal squared Euclidean
distance to the query yet the later slot does not hold the larger index —
the universal ascending/tie-break ordering over all `k` returned indices is
violated. -/
theorem ascending_order_counterexample :
    callOk 4 ptsB (some ctrA) false false 0 = true ∧
    callIdx 4 ptsB (some ctrA) false false 0 0 2 0 = 0 ∧
    callIdx 4 ptsB (some ctrA) false false 0 0 3 0 = 0 ∧
    dist2 ctrA ptsB 0 0 (callIdx 4 ptsB (some ctrA) false false 0 0 2 0) =
      dist2 ctrA ptsB 0 0 (callIdx 4 ptsB (some ctrA) false false 0 0 3 0) ∧
    ¬(callIdx 4 ptsB (some ctrA) false false 0 0 2 0 <
      callIdx 4 ptsB (some ctrA) false false 0 0 3 0) := by
  have he := forward_ok_eq 4 ptsB ctrA false 0 (by decide) rfl rfl rfl rfl rfl rfl rfl
  have h2 : callIdx 4 ptsB (some ctrA) false false 0 0 2 0 = 0 := by
    simp only [callIdx, he]
    rw [knnPairs_getD_pad (4:ℤ).toNat ptsB ctrA 0 0 2 (by decide)]
    rfl
  have h3 : callIdx 4 ptsB (some ctrA) false false 0 0 3 0 = 0 := by
    simp only [callIdx, he]
    rw [knnPairs_getD_pad (4:ℤ).toNat ptsB ctrA 0 0 3 (by decide)]
    rfl
  refine ⟨by decide, h2, h3, ?_, ?_⟩
  · rw [h2, h3]
  · rw [h2, h3]
    decide

/-- C1 (amended): on the non-NPU path, for every valid call and every
`(batch, query)` pair, the output slots holding genuine neighbors (all `k`
of them when `k ≤ N`, the first `N` otherwise) are emitted in ascending
order of squared Euclidean distance to the query point, and when two
candidates have equal distance the candidate with the lower index
(encountered earlier in the scan) is ranked first.  Sentinel-padded slots
(which repeat index 0) and the NPU branch (`torch.topk`, which does not
guarantee an index tie-break) are excluded. -/
theorem ascending_order (k : ℤ) (xyz c : Tensor3) (p : Bool) (d b m i j : ℕ)
    (hk : 0 < k ∧ k < 100) (hx : xyz.contiguous = true) (hc : c.contiguous = true)
    (hdev : c.device = xyz.device)
    (h3x : xyz.d2 = 3) (h3c : c.d2 = 3) (hB : xyz.d0 = c.d0)
    (hnpu : xyz.npu = false)
    (_hb : b < c.d0) (_hm : m < c.d1)
    (hij : i < j) (hjk : j < k.toNat) (hjN : j < xyz.d1) :
    dist2 c xyz b m (callIdx k xyz (some c) false p d b i m) ≤
      dist2 c xyz b m (callIdx k xyz (some c) false p d b j m) ∧
    (dist2 c xyz b m (callIdx k xyz (some c) false p d b i m) =
        dist2 c xyz b m (callIdx k xyz (some c) false p d b j m) →
      callIdx k xyz (some c) false p d b i m <
        callIdx k xyz (some c) false p d b j m) := by
  have he := forward_ok_eq k xyz c p d hk hx hc hdev h3x h3c hB hnpu
  have hik : i < k.toNat := lt_trans hij hjk
  have hiN : i < xyz.d1 := lt_trans hij hjN
  have hiL : i < (sortScan xyz c b m).length := (length_sortScan xyz c b m).symm ▸ hiN
  have hjL : j < (sortScan xyz c b m).length := (length_sortScan xyz c b m).symm ▸ hjN
  have hci : callIdx k xyz (some c) false p d b i m = (sortScan xyz c b m)[i].2 := by
    simp only [callIdx, he]
    rw [knnPairs_getD_real _ _ _ _ _ _ hik hiN, List.getD_eq_getElem _ _ hiL]
  have hcj : callIdx k xyz (some c) false p d b j m = (sortScan xyz c b m)[j].2 := by
    simp only [callIdx, he]
    rw [knnPairs_getD_real _ _ _ _ _ _ hjk hjN, List.getD_eq_getElem _ _ hjL]
  have hdi := (mem_sortScan xyz c b m (List.getElem_mem hiL)).1
  have hdj := (mem_sortScan xyz c b m (List.getElem_mem hjL)).1
  have hpair : pairLe (sortScan xyz c b m)[i] (sortScan xyz c b m)[j] :=
    List.pairwise_iff_getElem.mp (sortScan_sorted xyz c b m) i j hiL hjL hij
  have hsnd : (sortScan xyz c b m)[i].2 ≠ (sortScan xyz c b m)[j].2 := by
    intro hEq
    have hiM : i < ((sortScan xyz c b m).map Prod.snd).length := by simpa using hiL
    have hjM : j < ((sortScan xyz c b m).map Prod.snd).length := by simpa using hjL
    have h1 : ((sortScan xyz c b m).map Prod.snd)[i] =
        ((sortScan xyz c b m).map Prod.snd)[j] := by
      simpa [List.getElem_map] using hEq
    have := (List.Nodup.getElem_inj_iff (nodup_map_snd_sortScan xyz c b m)).mp h1
    omega
  rw [hci, hcj, ← hdi, ← hdj]
  rcases hpair with hlt | ⟨heq, hle⟩
  · exact ⟨le_of_lt hlt, fun hE => absurd hE (ne_of_lt hlt)⟩
  · exact ⟨le_of_eq heq, fun _ => lt_of_le_of_ne hle hsnd⟩

theorem ascending_order_witness :
    ((0:ℤ) < 2 ∧ (2:ℤ) < 100) ∧ (0 < ctrA.d0 ∧ 0 < ctrA.d1) ∧
    (0 < 1 ∧ 1 < (2:ℤ).toNat ∧ 1 < ptsA.d1) ∧
    dist2 ctrA ptsA 0 0 (callIdx 2 ptsA (some ctrA) false false 0 0 0 0) ≤
      dist2 ctrA ptsA 0 0 (callIdx 2 ptsA (some ctrA) false false 0 0 1 0) ∧
    (dist2 ctrA ptsA 0 0 (callIdx 2 ptsA (some ctrA) false false 0 0 0 0) =
        dist2 ctrA ptsA 0 0 (callIdx 2 ptsA (some ctrA) false false 0 0 1 0) →
      callIdx 2 ptsA (some ctrA) false false 0 0 0 0 <
        callIdx 2 ptsA (some ctrA) false false 0 0 1 0) := by
  have h := ascending_order 2 ptsA ctrA false 0 0 0 0 1 (by decide) rfl rfl rfl rfl rfl
    rfl rfl (by decide) (by decide) (by decide) (by decide) (by decide)
  exact ⟨by decide, by decide, by decide, h.1, h.2⟩

/-- C2: evaluation of the model at the failing input of the claim.  On the
NPU branch (the claim's cited lines knn.py 65-73), a valid call with `N < k`
(points `[[0,0,0],[1,0,0]]` on an NPU device, `k = 3`) does not clamp:
`torch.topk(dist, k, dim=2)` raises because `k` exceeds the dimension size,
so the call errors instead of padding — contradicting the documented clamp
policy of the claim and spec §7; independently, the branch's sentinel
substitution `idx.where(dist2 >= 1e10, zeros_idx)` discards its result, so
no sentinel index is ever written on that branch. -/
theorem npu_clamp_failure :
    forward 3 ptsBnpu (some ctrAnpu) false false 0 =
      (Except.error KnnError.runtimeError, 0) := rfl

/-- On the non-NPU path the documented clamp policy does hold as the claim
describes — the evident intent the NPU branch fails to implement: when
`N < k` the call succeeds, the first `N` output slots hold exactly the `N`
real neighbors (a permutation of all candidate indices `0..N-1`), and every
remaining slot holds sentinel index `0` paired with a sentinel distance of
at least `1e10`. -/
theorem clamp_policy (k : ℤ) (xyz c : Tensor3) (p : Bool) (d b m j : ℕ)
    (hk : 0 < k ∧ k < 100) (hx : xyz.contiguous = true) (hc : c.contiguous = true)
    (hdev : c.device = xyz.device)
    (h3x : xyz.d2 = 3) (h3c : c.d2 = 3) (hB : xyz.d0 = c.d0)
    (hnpu : xyz.npu = false)
    (_hb : b < c.d0) (_hm : m < c.d1)
    (hNk : xyz.d1 < k.toNat) (hNj : xyz.d1 ≤ j) (_hjk : j < k.toNat) :
    callOk k xyz (some c) false p d = true ∧
    ((List.range xyz.d1).map
        (fun n => callIdx k xyz (some c) false p d b n m)).Perm
      (List.range xyz.d1) ∧
    callIdx k xyz (some c) false p d b j m = 0 ∧
    (10 : ℚ) ^ 10 ≤ ((knnPairs k.toNat xyz c b m).getD j sentinel).1 := by
  have he := forward_ok_eq k xyz c p d hk hx hc hdev h3x h3c hB hnpu
  have hpad := knnPairs_getD_pad k.toNat xyz c b m j hNj
  have hmap : (List.range xyz.d1).map
      (fun n => callIdx k xyz (some c) false p d b n m)
      = (sortScan xyz c b m).map Prod.snd := by
    apply List.ext_get
    · simp [length_sortScan]
    · intro n h1 h2
      have hnN : n < xyz.d1 := by simpa using h1
      have hnL : n < (sortScan xyz c b m).length :=
        (length_sortScan xyz c b m).symm ▸ hnN
      simp only [List.get_eq_getElem, List.getElem_map, List.getElem_range]
      simp only [callIdx, he]
      rw [knnPairs_getD_real _ _ _ _ _ _ (lt_trans hnN hNk) hnN,
        List.getD_eq_getElem _ _ hnL]
  refine ⟨by simp [callOk, he], ?_, ?_, ?_⟩
  · exact hmap ▸ map_snd_sortScan_perm xyz c b m
  · simp only [callIdx, he]
    rw [hpad]
    rfl
  · rw [hpad]
    simp [sentinel]

theorem clamp_policy_example :
    ((0:ℤ) < 3 ∧ (3:ℤ) < 100) ∧ (0 < ctrA.d0 ∧ 0 < ctrA.d1) ∧
    (ptsB.d1 < (3:ℤ).toNat ∧ ptsB.d1 ≤ 2 ∧ 2 < (3:ℤ).toNat) ∧
    callOk 3 ptsB (some ctrA) false false 0 = true ∧
    ((List.range ptsB.d1).map
        (fun n => callIdx 3 ptsB (some ctrA) false false 0 0 n 0)).Perm
      (List.range ptsB.d1) ∧
    callIdx 3 ptsB (some ctrA) false false 0 0 2 0 = 0 ∧
    (10 : ℚ) ^ 10 ≤ ((knnPairs (3:ℤ).toNat ptsB ctrA 0 0).getD 2 sentinel).1 := by
  have h := clamp_policy 3 ptsB ctrA false 0 0 0 2 (by decide) rfl rfl rfl rfl rfl rfl
    rfl (by decide) (by decide) (by decide) (by decide) (by decide)
  exact ⟨by decide, by decide, by decide, h.1, h.2.1, h.2.2.1, h.2.2.2⟩

end Knn
